import Mathlib

/-!
# Verification of the txtrboard polling / change-detection core

Shallow embedding of `src/txtrboard/backend.py` (the `Backend` poller/cache),
`src/txtrboard/client.py` (`TensorBoardClient._make_request` error taxonomy),
and the refresh-interval plumbing in `src/txtrboard/ui/header.py` /
`src/txtrboard/ui/app.py`, together with proofs of the specified properties.
-/

namespace Txtrboard

/-! ## Messages (`src/txtrboard/messages.py` and the `RunsListUpdated` class)

`ConnectionStatusChanged(connected, error="")` is defined in `messages.py`.
`RunsListUpdated(runs)` is imported from `txtrboard.messages` by `backend.py`
and exercised by `tests/unit/test_messages.py` (it stores the run list as
`.runs`), but its class body is not present in `messages.py`; it is the
data-changed signal of the spec, carrying the run list per its callers and
tests. -/

inductive Msg where
  | runsListUpdated (runs : List String)
  | connectionStatusChanged (connected : Bool) (error : String)
deriving DecidableEq, Repr

def Msg.isRunsListUpdated : Msg → Bool
  | .runsListUpdated _ => true
  | _ => false

def Msg.isConnectionStatusChanged : Msg → Bool
  | .connectionStatusChanged _ _ => true
  | _ => false

/-! ## Client error taxonomy (`src/txtrboard/client.py`)

`TensorBoardConnectionError` and `TensorBoardAPIError` both extend
`TensorBoardClientError`; each carries the message it was constructed with
(`str(e)` returns it). -/

inductive ClientError where
  | connection (msg : String)
  | api (msg : String)
deriving DecidableEq, Repr

/-- `str(e)` for a `TensorBoardClientError`: the message it was raised with. -/
def ClientError.message : ClientError → String
  | .connection m => m
  | .api m => m

/-! ## Backend state (`Backend.__init__`, `backend.py` lines 56-59) -/

structure BackendState where
  cached_runs : Option (List String)
  connected : Bool
  last_error : String
deriving DecidableEq, Repr

/-- `Backend.__init__`: `_cached_runs = None`, `_connected = False`,
`_last_error = ""`. -/
def Backend.init : BackendState :=
  { cached_runs := none, connected := false, last_error := "" }

/-- The two fetch outcomes that reach the body respectively the `except`
clause of `poll_updates`: the `runs` field of the fetched `RunsResponse` (a
pydantic model with a required `runs: List[str]` field, so the
`hasattr(runs_response, "runs")` guard in `poll_updates` always passes), or
one of the two caught client exceptions. The full failure surface of
`get_runs` — including the failures that escape the `except` clause — is
modelled separately by `GetRunsFailure` below. -/
abbrev FetchOutcome := Except ClientError (List String)

/-- `Backend.poll_updates` (`backend.py` lines 61-115) as a state transition.
Returns the new state and the list of messages posted to the message pump, in
posting order.

Success path: if `self._cached_runs != current_runs` the cache is replaced
with a copy and `RunsListUpdated(current_runs)` is posted; then if
`not self._connected or self._last_error` the state becomes connected with
empty error and `ConnectionStatusChanged(connected=True)` is posted.

Failure path (`except (TensorBoardConnectionError, TensorBoardAPIError)`):
with `error_msg = str(e)`, if `self._connected or self._last_error != error_msg`
the state becomes disconnected with `_last_error = error_msg` and
`ConnectionStatusChanged(connected=False, error=error_msg)` is posted. -/
def poll_updates (s : BackendState) : FetchOutcome → BackendState × List Msg
  | .ok current_runs =>
    let dataMsgs : List Msg :=
      if s.cached_runs ≠ some current_runs then [.runsListUpdated current_runs] else []
    let s1 : BackendState :=
      if s.cached_runs ≠ some current_runs then { s with cached_runs := some current_runs }
      else s
    if s1.connected = false ∨ s1.last_error ≠ "" then
      ({ s1 with connected := true, last_error := "" },
        dataMsgs ++ [.connectionStatusChanged true ""])
    else
      (s1, dataMsgs)
  | .error e =>
    let error_msg := e.message
    if s.connected = true ∨ s.last_error ≠ error_msg then
      ({ s with connected := false, last_error := error_msg },
        [.connectionStatusChanged false error_msg])
    else
      (s, [])

/-! ### Full failure surface of `get_runs`

`TensorBoardClient.get_runs` (`client.py` lines 106-121) can fail in more
ways than the two typed client errors: `_make_request` wraps only
`httpx.ConnectError`, `httpx.TimeoutException` and `httpx.HTTPStatusError`,
so any other httpx transport error (e.g. `RemoteProtocolError`, `ReadError`)
propagates unwrapped; and on a 2xx response `response.json()` raises
`json.JSONDecodeError` for a malformed body, while `RunsResponse(runs=...)`
raises a pydantic `ValidationError` for a payload that is not a list of
strings. Only the first two kinds are matched by
`except (TensorBoardConnectionError, TensorBoardAPIError)` in
`poll_updates`. -/

inductive GetRunsFailure where
  | connectionError (msg : String)
  | apiError (msg : String)
  | transportError (msg : String)
  | jsonDecodeError (msg : String)
  | validationError (msg : String)
deriving DecidableEq, Repr

/-- Which raised exceptions the
`except (TensorBoardConnectionError, TensorBoardAPIError)` clause of
`poll_updates` (`backend.py` line 103) matches. -/
def handled_by_poll_except : GetRunsFailure → Bool
  | .connectionError _ => true
  | .apiError _ => true
  | .transportError _ => false
  | .jsonDecodeError _ => false
  | .validationError _ => false

/-- `poll_updates` over the full failure surface of `get_runs`: a caught
exception is absorbed by the failure path of `poll_updates`; any other
exception escapes the `except` clause and propagates to the caller. The
raise happens at the `await self.client.get_runs()` call, before any cache
or status write, so a propagated failure leaves the state untouched and
posts no message. -/
def poll_updates_full (s : BackendState) :
    Except GetRunsFailure (List String) → Except GetRunsFailure (BackendState × List Msg)
  | .ok v => .ok (poll_updates s (.ok v))
  | .error (.connectionError m) => .ok (poll_updates s (.error (.connection m)))
  | .error (.apiError m) => .ok (poll_updates s (.error (.api m)))
  | .error (.transportError m) => .error (.transportError m)
  | .error (.jsonDecodeError m) => .error (.jsonDecodeError m)
  | .error (.validationError m) => .error (.validationError m)

/-- The `cached_runs` property (`backend.py` lines 123-126):
`self._cached_runs.copy() if self._cached_runs else None`. Note Python
truthiness: both `None` and the empty list are falsy. -/
def cached_runs_property (s : BackendState) : Option (List String) :=
  match s.cached_runs with
  | none => none
  | some l => if l = [] then none else some l

/-- A sequence of `poll_updates` calls, threading the state. -/
def run_polls (s : BackendState) (trace : List FetchOutcome) : BackendState :=
  trace.foldl (fun st r => (poll_updates st r).1) s

/-- The payload of the last successful fetch in a trace, if any. -/
def lastSuccess : List FetchOutcome → Option (List String)
  | [] => none
  | r :: rest =>
    match lastSuccess rest with
    | some l => some l
    | none => match r with
              | .ok l => some l
              | .error _ => none

/-- Invariant of the cached state: a non-empty `_last_error` only occurs while
disconnected (`backend.py` init and both branches of `poll_updates`). -/
def ConnInvariant (s : BackendState) : Prop :=
  s.connected = true → s.last_error = ""

instance (s : BackendState) : Decidable (ConnInvariant s) := by
  unfold ConnInvariant; infer_instance

/-! ## Basic shape lemmas about `poll_updates` -/

theorem poll_ok_fst_cached (s : BackendState) (v : List String) :
    ((poll_updates s (.ok v)).1).cached_runs = some v := by
  by_cases h : s.cached_runs = some v <;>
    by_cases h2 : s.connected = false ∨ s.last_error ≠ "" <;>
      simp [poll_updates, h, h2]

theorem poll_err_fst_cached (s : BackendState) (e : ClientError) :
    ((poll_updates s (.error e)).1).cached_runs = s.cached_runs := by
  simp only [poll_updates]
  split <;> simp

/-- C2: on a successful poll the data-changed signal (`RunsListUpdated`) is
posted exactly once iff the fetched list differs from the cached list under
ordered list equality, and afterwards the cache holds exactly the fetched
list (so it is replaced on a change and left unchanged when equal; a mere
reordering is a change because list equality is ordered). -/
theorem C2_data_changed_iff_list_differs (s : BackendState) (v : List String) :
    ((poll_updates s (.ok v)).2.countP Msg.isRunsListUpdated
        = if s.cached_runs = some v then 0 else 1)
    ∧ ((poll_updates s (.ok v)).1).cached_runs = some v := by
  refine ⟨?_, poll_ok_fst_cached s v⟩
  by_cases h : s.cached_runs = some v <;>
    by_cases h2 : s.connected = false ∨ s.last_error ≠ "" <;>
      simp [poll_updates, h, h2, Msg.isRunsListUpdated, Msg.isConnectionStatusChanged]

/-- C3 counterexample: a fetch whose 2xx body is malformed JSON makes
`response.json()` raise `json.JSONDecodeError`, which the `except` clause of
`poll_updates` does not match — the poll call does not return normally but
propagates the failure to its caller, so there is a third, fatal failure
category beyond connection failure and protocol failure. -/
theorem C3_counterexample :
    poll_updates_full Backend.init
        (Except.error (GetRunsFailure.jsonDecodeError
          "Expecting value: line 1 column 1 (char 0)"))
      = Except.error (GetRunsFailure.jsonDecodeError
          "Expecting value: line 1 column 1 (char 0)")
    ∧ handled_by_poll_except
        (GetRunsFailure.jsonDecodeError "Expecting value: line 1 column 1 (char 0)")
        = false :=
  ⟨rfl, rfl⟩

/-- C3 (amended): the poll operation absorbs exactly the two typed Remote
Client failures — on a success and on a connection or API error it returns
normally, with the failure folded into cache state and at most a
notification — but every other fetch failure (an httpx transport error that
`_make_request` does not wrap, a malformed 2xx body, a non-list payload)
escapes the `except` clause and propagates to poll's caller unchanged. -/
theorem C3_amended_absorbs_exactly_typed (s : BackendState)
    (r : Except GetRunsFailure (List String)) :
    (match r with
      | .ok _ => ∃ out, poll_updates_full s r = .ok out
      | .error e =>
          if handled_by_poll_except e then ∃ out, poll_updates_full s r = .ok out
          else poll_updates_full s r = .error e) := by
  cases r with
  | ok v => exact ⟨_, rfl⟩
  | error e => cases e <;> first | exact ⟨_, rfl⟩ | rfl

/-- C4: a failed poll leaves the cached run list exactly as it was and does
not post the data-changed signal; the state's only other fields are the
connection flag and the last-error text. -/
theorem C4_failure_preserves_cache (s : BackendState) (e : ClientError) :
    ((poll_updates s (.error e)).1).cached_runs = s.cached_runs
    ∧ (poll_updates s (.error e)).2.countP Msg.isRunsListUpdated = 0 := by
  refine ⟨poll_err_fst_cached s e, ?_⟩
  simp only [poll_updates]
  split <;> simp [Msg.isRunsListUpdated]

/-- C5: every poll posts at most one data-changed signal and at most one
connection-status notification (so 0, 1 or 2 messages in total), and the
posted list always consists of the data-changed signals followed by the
connection notifications, i.e. when both are due the data-changed signal is
delivered first. -/
theorem C5_at_most_two_ordered (s : BackendState) (r : FetchOutcome) :
    (poll_updates s r).2.countP Msg.isRunsListUpdated ≤ 1
    ∧ (poll_updates s r).2.countP Msg.isConnectionStatusChanged ≤ 1
    ∧ (poll_updates s r).2.length ≤ 2
    ∧ (poll_updates s r).2
        = (poll_updates s r).2.filter Msg.isRunsListUpdated
          ++ (poll_updates s r).2.filter Msg.isConnectionStatusChanged := by
  cases r with
  | ok v =>
    by_cases h : s.cached_runs = some v <;>
      by_cases h2 : s.connected = false ∨ s.last_error ≠ "" <;>
        simp [poll_updates, h, h2, Msg.isRunsListUpdated, Msg.isConnectionStatusChanged]
  | error e =>
    simp only [poll_updates]
    split <;> simp [Msg.isRunsListUpdated, Msg.isConnectionStatusChanged]

/-- C6: the invariant "the last-error text is non-empty only while
disconnected" (equivalently `connected = true → lastError = ""`) holds at
construction and is preserved by `poll_updates` on both the success and the
failure path. -/
theorem C6_invariant_preserved :
    ConnInvariant Backend.init
    ∧ ∀ (s : BackendState) (r : FetchOutcome),
        ConnInvariant s → ConnInvariant (poll_updates s r).1 := by
  refine ⟨fun _ => rfl, ?_⟩
  intro s r h
  unfold ConnInvariant at *
  cases r with
  | ok v =>
    by_cases hc : s.cached_runs = some v <;>
      by_cases h2 : s.connected = false ∨ s.last_error ≠ "" <;>
        simp_all [poll_updates, hc, h2]
  | error e =>
    simp only [poll_updates]
    split <;> simp_all

/-- Witness for C6 at a concrete reachable state and a concrete failure. -/
theorem C6_invariant_preserved_witness :
    ConnInvariant { cached_runs := some ["a"], connected := true, last_error := "" }
    ∧ ConnInvariant (poll_updates
        { cached_runs := some ["a"], connected := true, last_error := "" }
        (Except.error (ClientError.connection "boom"))).1 :=
  ⟨by decide, C6_invariant_preserved.2 _ _ (by decide)⟩

/-- C1: for a poll from a state satisfying the cached-state invariant, a
`ConnectionStatusChanged` notification is posted iff the connected flag flips
or the new state is disconnected with an error text different from the stored
previous one; on a successful poll any such notification carries
`(connected = true, error = "")` and on a failed poll it carries
`(connected = false, error = str(e))`. -/
theorem C1_connection_notification_iff (s : BackendState) (r : FetchOutcome)
    (hinv : ConnInvariant s) :
    ((∃ c e, Msg.connectionStatusChanged c e ∈ (poll_updates s r).2) ↔
      ((poll_updates s r).1.connected ≠ s.connected ∨
        ((poll_updates s r).1.connected = false ∧
          (poll_updates s r).1.last_error ≠ s.last_error)))
    ∧ (∀ v, r = Except.ok v →
        ∀ c e, Msg.connectionStatusChanged c e ∈ (poll_updates s r).2 →
          c = true ∧ e = "")
    ∧ (∀ err, r = Except.error err →
        ∀ c e, Msg.connectionStatusChanged c e ∈ (poll_updates s r).2 →
          c = false ∧ e = err.message) := by
  refine ⟨?_, ?_, ?_⟩
  · cases r with
    | ok v =>
      by_cases h2 : s.connected = false ∨ s.last_error ≠ ""
      · have hc : s.connected = false := by
          rcases h2 with h2 | h2
          · exact h2
          · cases hsc : s.connected with
            | false => rfl
            | true => exact absurd (hinv hsc) h2
        by_cases h : s.cached_runs = some v <;>
          simp [poll_updates, h, h2, hc]
      · by_cases h : s.cached_runs = some v <;>
          simp [poll_updates, h, h2]
    | error e =>
      by_cases h2 : s.connected = true ∨ s.last_error ≠ e.message
      · have hr : (false ≠ s.connected) ∨ (e.message ≠ s.last_error) := by
          rcases h2 with h2 | h2
          · exact Or.inl (by simp [h2])
          · exact Or.inr (Ne.symm h2)
        rcases hr with hr | hr <;> simp [poll_updates, h2, hr]
      · simp [poll_updates, h2]
  · rintro v rfl c e hmem
    by_cases h : s.cached_runs = some v <;>
      by_cases h2 : s.connected = false ∨ s.last_error ≠ "" <;>
        simp_all [poll_updates, h, h2]
  · rintro err rfl c e hmem
    by_cases h2 : s.connected = true ∨ s.last_error ≠ err.message <;>
      simp_all [poll_updates, h2]

/-- Witness for C1: disconnected state with stored error "X", successful poll
returning the unchanged list. -/
theorem C1_connection_notification_iff_witness :
    ConnInvariant { cached_runs := some ["a"], connected := false, last_error := "X" }
    ∧ (((∃ c e, Msg.connectionStatusChanged c e ∈
          (poll_updates { cached_runs := some ["a"], connected := false, last_error := "X" }
            (Except.ok ["a"])).2) ↔
        ((poll_updates { cached_runs := some ["a"], connected := false, last_error := "X" }
            (Except.ok ["a"])).1.connected
            ≠ BackendState.connected { cached_runs := some ["a"], connected := false, last_error := "X" } ∨
          ((poll_updates { cached_runs := some ["a"], connected := false, last_error := "X" }
              (Except.ok ["a"])).1.connected = false ∧
            (poll_updates { cached_runs := some ["a"], connected := false, last_error := "X" }
              (Except.ok ["a"])).1.last_error
              ≠ BackendState.last_error { cached_runs := some ["a"], connected := false, last_error := "X" })))
      ∧ (∀ v, (Except.ok ["a"] : FetchOutcome) = Except.ok v →
          ∀ c e, Msg.connectionStatusChanged c e ∈
            (poll_updates { cached_runs := some ["a"], connected := false, last_error := "X" }
              (Except.ok ["a"])).2 → c = true ∧ e = "")
      ∧ (∀ err, (Except.ok ["a"] : FetchOutcome) = Except.error err →
          ∀ c e, Msg.connectionStatusChanged c e ∈
            (poll_updates { cached_runs := some ["a"], connected := false, last_error := "X" }
              (Except.ok ["a"])).2 → c = false ∧ e = err.message)) :=
  ⟨by decide,
    C1_connection_notification_iff
      { cached_runs := some ["a"], connected := false, last_error := "X" }
      (Except.ok ["a"]) (by decide)⟩

/-- The cache field after a trace of polls holds the payload of the most
recent successful poll, and is untouched by failed polls. -/
theorem run_polls_cached (tr : List FetchOutcome) :
    ∀ s : BackendState,
      (run_polls s tr).cached_runs
        = match lastSuccess tr with
          | some l => some l
          | none => s.cached_runs := by
  induction tr with
  | nil => intro s; rfl
  | cons r rest ih =>
    intro s
    have hstep : run_polls s (r :: rest) = run_polls (poll_updates s r).1 rest := rfl
    rw [hstep, ih]
    cases hl : lastSuccess rest with
    | some l => simp [lastSuccess, hl]
    | none =>
      cases r with
      | ok v => simp [lastSuccess, hl, poll_ok_fst_cached]
      | error e => simp [lastSuccess, hl, poll_err_fst_cached]

/-- C7 counterexample: one successful poll fetching the empty run list caches
`[]`, yet the `cached_runs` property returns `None` (Python truthiness treats
the empty list like `None`), contradicting the claim that after a successful
poll the accessor returns the most recent successful fetch even when it is
the empty list. -/
theorem C7_counterexample :
    lastSuccess [Except.ok ([] : List String)] = some []
    ∧ (run_polls Backend.init [Except.ok ([] : List String)]).cached_runs = some []
    ∧ cached_runs_property (run_polls Backend.init [Except.ok ([] : List String)]) = none := by
  decide

/-- C7 (amended): starting from construction, the `cached_runs` property
returns `None` until the first successful poll and also when the most recent
successful poll fetched the empty list; otherwise it returns exactly the run
list fetched by the most recent successful poll, with intervening failed
polls not affecting the returned value. -/
theorem C7_amended_accessor_last_success (tr : List FetchOutcome) :
    cached_runs_property (run_polls Backend.init tr)
      = (lastSuccess tr).bind (fun l => if l = [] then none else some l) := by
  have h := run_polls_cached tr Backend.init
  cases hl : lastSuccess tr with
  | none =>
    rw [hl] at h
    unfold cached_runs_property
    simp only [Backend.init] at h ⊢
    rw [h]
    simp
  | some l =>
    rw [hl] at h
    unfold cached_runs_property
    simp only [Backend.init] at h ⊢
    rw [h]
    simp

/-! ## Remote Client request handling (`TensorBoardClient._make_request`,
`client.py` lines 61-86)

`self.client.get(url, params=params)` either raises `httpx.ConnectError`
(socket cannot be established) or `httpx.TimeoutException` (request exceeds
the timeout), or yields a response; `response.raise_for_status()` then raises
`httpx.HTTPStatusError` exactly when the status code is not 2xx
(httpx `is_success` is `200 <= code <= 299`). Each of these carries its own
`str(e)` text, abstracted here as the `cause`/`statusDetail` string. -/

inductive HttpxOutcome where
  | connectError (cause : String)
  | timeoutException (cause : String)
  | response (status : Nat) (statusDetail : String)
deriving DecidableEq, Repr

/-- httpx `Response.is_success`: status in the 2xx range. -/
def is_success (status : Nat) : Bool := 200 ≤ status && status ≤ 299

/-- `TensorBoardClient.__init__` stores `base_url.rstrip("/")`. -/
def init_base_url (base_url : String) : String :=
  String.mk ((base_url.data.reverse.dropWhile (fun c => c = '/')).reverse)

/-- `TensorBoardClient._make_request` error handling, as a function of the
stored `base_url` and the outcome of the underlying GET: the three `except`
arms wrap the causes into the two typed client errors with the exact f-string
messages of the source. -/
def make_request (base_url : String) : HttpxOutcome → Except ClientError Nat
  | .connectError cause =>
      .error (.connection
        ("Unable to connect to TensorBoard at " ++ base_url ++ ": " ++ cause))
  | .timeoutException cause =>
      .error (.connection
        ("Request timeout connecting to TensorBoard: " ++ cause))
  | .response status statusDetail =>
      if is_success status then .ok status
      else .error (.api ("TensorBoard API error: " ++ statusDetail))

/-- Substring containment, used to state "the message includes ...". -/
def containsStr (s pat : String) : Prop := pat.data <:+: s.data

instance (s pat : String) : Decidable (containsStr s pat) := by
  unfold containsStr
  exact List.decidableInfix _ _

theorem string_data_append (s t : String) : (s ++ t).data = s.data ++ t.data := rfl

theorem containsStr_of_middle (a b c : String) : containsStr (a ++ b ++ c) b := by
  unfold containsStr
  exact ⟨a.data, c.data, by simp [string_data_append]⟩

theorem containsStr_of_right (a b : String) : containsStr (a ++ b) b := by
  unfold containsStr
  exact ⟨a.data, [], by simp [string_data_append]⟩

/-- C8 counterexample: a timeout is a connection-level failure, but its error
message does not include the configured base URL; with the default base URL
the message is `Request timeout connecting to TensorBoard: <cause>`, of which
`http://localhost:6006` is not a substring. -/
theorem C8_counterexample :
    make_request "http://localhost:6006" (.timeoutException "timed out")
      = Except.error (ClientError.connection
          "Request timeout connecting to TensorBoard: timed out")
    ∧ ¬ containsStr "Request timeout connecting to TensorBoard: timed out"
        "http://localhost:6006" := by
  refine ⟨rfl, ?_⟩
  decide

/-- C8 (amended): the request fails with a connection error exactly on a
socket-connect failure or a timeout; the connect-failure message includes the
configured base URL and the underlying cause, while the timeout message
includes only the cause (not the base URL). It fails with an API error
exactly when the response status is not 2xx, with a message including the
status detail. -/
theorem C8_amended_error_taxonomy (base_url : String) (o : HttpxOutcome) :
    (match o with
      | .connectError cause =>
          ∃ m, make_request base_url o = Except.error (ClientError.connection m)
            ∧ containsStr m base_url ∧ containsStr m cause
      | .timeoutException cause =>
          ∃ m, make_request base_url o = Except.error (ClientError.connection m)
            ∧ containsStr m cause
      | .response status statusDetail =>
          if is_success status then make_request base_url o = Except.ok status
          else ∃ m, make_request base_url o = Except.error (ClientError.api m)
            ∧ containsStr m statusDetail) := by
  cases o with
  | connectError cause =>
    refine ⟨_, rfl, ?_, ?_⟩
    · have h := containsStr_of_middle "Unable to connect to TensorBoard at " base_url
        (": " ++ cause)
      simpa [String.append_assoc] using h
    · exact containsStr_of_right _ cause
  | timeoutException cause =>
    exact ⟨_, rfl, containsStr_of_right _ cause⟩
  | response status statusDetail =>
    by_cases h : is_success status = true
    · simp [make_request, h]
    · simp only [Bool.not_eq_true] at h
      simp only [make_request, h, if_neg, Bool.false_eq_true, not_false_iff, if_false]
      exact ⟨_, rfl, containsStr_of_right _ statusDetail⟩

/-! ## Defensive copy of the cached run list

Python lists are mutable heap objects; the `cached_runs` property returns
`self._cached_runs.copy()`, a fresh allocation. The aliasing behaviour is
modelled with an explicit heap of list cells addressed by `Nat`. -/

structure Heap where
  mem : Nat → List String
  next : Nat

/-- Allocate a fresh list cell holding `v`. -/
def Heap.alloc (h : Heap) (v : List String) : Nat × Heap :=
  (h.next,
    { mem := fun x => if x = h.next then v else h.mem x, next := h.next + 1 })

/-- In-place mutation of the list stored at address `a`. -/
def Heap.write (h : Heap) (a : Nat) (v : List String) : Heap :=
  { mem := fun x => if x = a then v else h.mem x, next := h.next }

/-- The `cached_runs` property over the heap model: given the backend's
`_cached_runs` reference, return `None` when it is `None` or refers to an
empty (falsy) list, otherwise allocate and return `.copy()` of it. -/
def cached_runs_property_heap (h : Heap) (r : Option Nat) : Option Nat × Heap :=
  match r with
  | none => (none, h)
  | some a =>
    if h.mem a = [] then (none, h)
    else
      let res := h.alloc (h.mem a)
      (some res.1, res.2)

/-- C9: with a non-empty cached list at a valid address `a`, the accessor
returns a freshly allocated copy at a different address; mutating that copy
in place does not change the backend's cell, and a second accessor call
still returns the original cached contents. -/
theorem C9_defensive_copy (h : Heap) (a : Nat) (hwf : a < h.next)
    (hne : h.mem a ≠ []) (v : List String) :
    (cached_runs_property_heap h (some a)).1 = some h.next
    ∧ h.next ≠ a
    ∧ ((cached_runs_property_heap h (some a)).2.write h.next v).mem a = h.mem a
    ∧ (cached_runs_property_heap
        ((cached_runs_property_heap h (some a)).2.write h.next v) (some a)).1
        = some (h.next + 1)
    ∧ ((cached_runs_property_heap
        ((cached_runs_property_heap h (some a)).2.write h.next v) (some a)).2).mem
        (h.next + 1)
        = h.mem a := by
  have hab : a ≠ h.next := Nat.ne_of_lt hwf
  refine ⟨?_, (Nat.ne_of_lt hwf).symm, ?_, ?_, ?_⟩ <;>
    simp [cached_runs_property_heap, Heap.alloc, Heap.write, hne, hab]

/-- Concrete heap for the C9 witness: one allocated cell holding a two-run
list. -/
def exampleHeap : Heap :=
  { mem := fun x => if x = 0 then ["train", "eval"] else [], next := 1 }

/-- Witness for C9 at the concrete heap. -/
theorem C9_defensive_copy_witness :
    (0 < exampleHeap.next ∧ exampleHeap.mem 0 ≠ [])
    ∧ ((cached_runs_property_heap exampleHeap (some 0)).1 = some exampleHeap.next
      ∧ exampleHeap.next ≠ 0
      ∧ ((cached_runs_property_heap exampleHeap (some 0)).2.write exampleHeap.next []).mem 0
          = exampleHeap.mem 0
      ∧ (cached_runs_property_heap
          ((cached_runs_property_heap exampleHeap (some 0)).2.write exampleHeap.next [])
          (some 0)).1
          = some (exampleHeap.next + 1)
      ∧ ((cached_runs_property_heap
          ((cached_runs_property_heap exampleHeap (some 0)).2.write exampleHeap.next [])
          (some 0)).2).mem (exampleHeap.next + 1)
          = exampleHeap.mem 0) :=
  ⟨⟨by decide, by decide⟩, C9_defensive_copy exampleHeap 0 (by decide) (by decide) []⟩

/-! ## Refresh-interval plumbing (`ui/header.py` and `ui/app.py`)

`TextBoardHeader.on_select_changed` posts a `RefreshIntervalChanged` message
only when the selected value is not `"INACTIVE"`;
`TextBoardApp.on_refresh_interval_changed` stops any existing polling timer
and starts a new one via `set_interval`. -/

inductive SelectValue where
  | inactive | s5 | s10 | s30 | m1 | m5
deriving DecidableEq, Repr

/-- The `interval_map` dict of `TextBoardHeader.on_select_changed`. -/
def interval_map : List (SelectValue × ℚ) :=
  [(.s5, 5), (.s10, 10), (.s30, 30), (.m1, 60), (.m5, 300)]

/-- `interval_map.get(value, 30.0)`. -/
def interval_map_get (value : SelectValue) : ℚ :=
  match interval_map.find? (fun p => p.1 == value) with
  | some p => p.2
  | none => 30

/-- Messages a header interaction posts to the app
(`src/txtrboard/messages.py`). -/
inductive UIMessage where
  | refreshRequested
  | refreshIntervalChanged (interval : ℚ)
deriving DecidableEq, Repr

/-- `TextBoardHeader.on_select_changed` for the refresh-interval selector:
nothing is posted for `"INACTIVE"`. -/
def on_select_changed (value : SelectValue) : List UIMessage :=
  if value ≠ .inactive then [.refreshIntervalChanged (interval_map_get value)]
  else []

/-- A Textual timer registration: its cadence and whether `stop()` has been
called on it. An active registration keeps firing scheduled polls. -/
structure Timer where
  interval : ℚ
  active : Bool
deriving DecidableEq, Repr

/-- The app's polling fields: every timer ever registered (in creation
order), the index of `self.polling_timer` among them, and
`self.polling_interval`. -/
structure AppState where
  timers : List Timer
  polling_timer : Option Nat
  polling_interval : ℚ
deriving DecidableEq, Repr

/-- `TextBoardApp.__init__` / `on_mount`: no timer running (INACTIVE by
default), `polling_interval = 30.0`. -/
def AppState.initial : AppState :=
  { timers := [], polling_timer := none, polling_interval := 30 }

/-- `Timer.stop()` on the registration at index `i`. -/
def stopTimerAt (ts : List Timer) (i : Nat) : List Timer :=
  ts.mapIdx (fun j t => if j = i then { t with active := false } else t)

/-- `TextBoardApp.on_refresh_interval_changed`: store the new interval, stop
the existing polling timer if any, then `set_interval` a new one. -/
def on_refresh_interval_changed (st : AppState) (interval : ℚ) : AppState :=
  let st1 := { st with polling_interval := interval }
  let st2 :=
    match st1.polling_timer with
    | some i => { st1 with timers := stopTimerAt st1.timers i, polling_timer := none }
    | none => st1
  { st2 with
      timers := st2.timers ++ [{ interval := interval, active := true }],
      polling_timer := some st2.timers.length }

/-- App-side handling of one header message; the `Nat` counts the immediate
polls triggered (`on_refresh_requested` schedules one via `call_later`,
`on_refresh_interval_changed` triggers none). -/
def dispatch (st : AppState) : UIMessage → AppState × Nat
  | .refreshRequested => (st, 1)
  | .refreshIntervalChanged i => (on_refresh_interval_changed st i, 0)

/-- Changing the selector value: the header posts its messages and the app
handles them in order; returns the final state and the number of immediate
polls triggered. -/
def select_changed (st : AppState) (value : SelectValue) : AppState × Nat :=
  (on_select_changed value).foldl
    (fun acc m =>
      let r := dispatch acc.1 m
      (r.1, acc.2 + r.2))
    (st, 0)

/-- C10 counterexample: with a 10s polling timer running, selecting
`"INACTIVE"` leaves the app state unchanged — the header posts no message, so
the existing timer registration is never stopped and keeps firing scheduled
polls, contradicting the claim that no further scheduled polls occur. -/
theorem C10_counterexample :
    (select_changed AppState.initial .s10).1
      = { timers := [{ interval := 10, active := true }],
          polling_timer := some 0, polling_interval := 10 }
    ∧ (select_changed (select_changed AppState.initial .s10).1 .inactive).1
        = (select_changed AppState.initial .s10).1
    ∧ ∃ t ∈ (select_changed (select_changed AppState.initial .s10).1 .inactive).1.timers,
        t.active = true := by
  decide

/-- C10 (amended): selecting the inactive value posts no interval-change
message, so the app state is left entirely unchanged — the existing timer
registration is not stopped and scheduled polls continue at the previous
cadence — and the change itself neither triggers nor cancels a poll. -/
theorem C10_amended_inactive_is_noop (st : AppState) :
    select_changed st .inactive = (st, 0) := rfl

end Txtrboard
